import Mathlib

/-!
Shallow embedding of the paperSearcher backend (src/website.py and
src/config.py): keyword parsing, input validation, parameterized query
construction and the query executor.  Python exceptions that the code does
not catch are modelled with Except PyErr; the sqlite engine is an abstract
parameter (a function from statement text and bound values to either an
engine error message or a list of rows), and every cursor.execute call is
recorded in an explicit trace.
-/

namespace PaperSearcher

/-- A value bound to a positional placeholder: the code binds strings
(keyword patterns, conference codes) and integers (years, limit, offset). -/
inductive Value where
  | str (s : String)
  | int (n : Int)
deriving DecidableEq, Repr

/-- Uncaught Python runtime faults that the code can raise. -/
inductive PyErr where
  | indexError
  | typeError
deriving DecidableEq, Repr

/-- config.py MIN_YEAR. -/
def MIN_YEAR : Int := 2016

/-- config.py MAX_YEAR. -/
def MAX_YEAR : Int := 2025

/-- config.py MAX_KEYWORD_LENGTH. -/
def MAX_KEYWORD_LENGTH : Nat := 200

/-- config.py MAX_LIMIT. -/
def MAX_LIMIT : Int := 100

/-- config.py ALLOWED_CONFERENCES (a set in the source; membership is all
that is ever used, so a list is an adequate embedding). -/
def ALLOWED_CONFERENCES : List String :=
  ["ccs", "sp", "spw", "uss", "cest", "foci", "soups", "woot",
   "tdsc", "tifs", "ndss", "acsac", "csur", "comsur", "esorics",
   "csfw", "dsn", "compsec", "raid", "jcs", "tissec", "srds",
   "jsac", "tmc", "ton", "sigcomm", "mobicom", "infocom", "nsdi", "www"]

/-- Leading whitespace removal, the one-sided half of Python str.strip(). -/
def pyStripChars : List Char → List Char
  | [] => []
  | c :: cs => if c.isWhitespace then pyStripChars cs else c :: cs

/-- Python str.strip(): whitespace removed from both ends. -/
def pyStrip (s : String) : String :=
  String.mk ((pyStripChars ((pyStripChars s.data).reverse)).reverse)

/-- Python str.lower(), character by character. -/
def pyLower (s : String) : String := String.mk (s.data.map Char.toLower)

/-- Python str.upper(), character by character. -/
def pyUpper (s : String) : String := String.mk (s.data.map Char.toUpper)

/-- Python str.split(","), the tail-recursive scan with the reversed
current segment as accumulator: splitting "" gives [""], a trailing comma
yields a trailing empty segment. -/
def splitCommaAux : List Char → List Char → List String
  | [], cur => [String.mk cur.reverse]
  | c :: cs, cur =>
    if c = ',' then String.mk cur.reverse :: splitCommaAux cs []
    else splitCommaAux cs (c :: cur)

/-- Python s.split(","). -/
def pySplit (s : String) : List String := splitCommaAux s.data []

/-- Python int(): digits of the digit part, where single underscores may
separate digits (accumulator-passing tail of the digit parser). -/
def pyDigitsAux : List Char → Nat → Option Nat
  | [], acc => some acc
  | '_' :: c :: cs, acc =>
      if c.isDigit then pyDigitsAux cs (acc * 10 + (c.toNat - 48)) else none
  | ['_'], _ => none
  | c :: cs, acc =>
      if c.isDigit then pyDigitsAux cs (acc * 10 + (c.toNat - 48)) else none

/-- Python int(): the digit part must begin with a digit and be non-empty. -/
def pyDigits : List Char → Option Nat
  | [] => none
  | c :: cs => if c.isDigit then pyDigitsAux cs (c.toNat - 48) else none

/-- Python int(str): surrounding whitespace is stripped, an optional single
sign precedes the digits; anything else raises ValueError (modelled none). -/
def pyInt (s : String) : Option Int :=
  match (pyStrip s).data with
  | '+' :: rest => (pyDigits rest).map (fun n => (n : Int))
  | '-' :: rest => (pyDigits rest).map (fun n => -(n : Int))
  | rest => (pyDigits rest).map (fun n => (n : Int))

/-- Python str.isdigit restricted to ASCII: non-empty and all digits. -/
def pyIsdigit (s : String) : Bool := !(s == "") && s.data.all Char.isDigit

/-- Numeric value of an all-digit string, as int() computes it there. -/
def natOfDigits (l : List Char) : Nat := l.foldl (fun a c => a * 10 + (c.toNat - 48)) 0

/-- Python "sep".join(parts). -/
def pyJoin (sep : String) : List String → String
  | [] => ""
  | [x] => x
  | x :: xs => x ++ sep ++ pyJoin sep xs

/-- website.py parse_keywords: the character scan, carried out on the
remaining characters with the current term buffer as accumulator.  A
delimiter closes the buffer (trim; keep only if non-empty) and records its
operator; the end of the string closes the buffer the same way. -/
def parseAux : List Char → List Char → List String × List String
  | [], tmp =>
    let t := pyStrip (String.mk tmp)
    (if t = "" then [] else [t], [])
  | c :: cs, tmp =>
    if c = '+' then
      let t := pyStrip (String.mk tmp)
      let r := parseAux cs []
      ((if t = "" then [] else [t]) ++ r.1, "and" :: r.2)
    else if c = '|' then
      let t := pyStrip (String.mk tmp)
      let r := parseAux cs []
      ((if t = "" then [] else [t]) ++ r.1, "or" :: r.2)
    else
      parseAux cs (tmp ++ [c])

/-- website.py parse_keywords(q) returning (keywords, operators). -/
def parse_keywords (q : String) : List String × List String :=
  parseAux q.data []

/-- Python regex class of website.py validate_keyword: word characters,
whitespace, the two delimiters, and the CJK range 4e00 to 9fff. -/
def keywordChar (c : Char) : Bool :=
  c.isAlphanum || c = '_' || c.isWhitespace || c = '+' || c = '|' ||
    (0x4e00 ≤ c.toNat && c.toNat ≤ 0x9fff)

/-- website.py validate_keyword: none means the keyword passed. -/
def validate_keyword (q : String) : Option String :=
  if q = "" then none
  else if !(q.data.all keywordChar) then some "Invalid keyword format"
  else if q.length > MAX_KEYWORD_LENGTH then some "Keyword too long"
  else none

/-- website.py validate_pagination: both strings must parse with int();
offset is floored at 0 and limit capped at MAX_LIMIT. -/
def validate_pagination (offset limit : String) : Option (Int × Int) :=
  match pyInt offset, pyInt limit with
  | some oi, some li => some (max 0 oi, min MAX_LIMIT li)
  | _, _ => none

/-- website.py validate_conferences: split on commas, strip and lowercase
each token, require the set to be a subset of the allow-list, return the
tokens uppercased; None both for a missing and for a failing parameter. -/
def validate_conferences (source : Option String) : Option (List String) :=
  match source with
  | none => none
  | some s =>
    if s = "" then none
    else
      if ((pySplit s).map (fun t => pyLower (pyStrip t))).all
          (fun t => ALLOWED_CONFERENCES.contains t) then
        some (((pySplit s).map (fun t => pyLower (pyStrip t))).map (fun t => pyUpper t))
      else none

/-- website.py validate_years loop body over the comma-separated tokens. -/
def yearsAux : List String → Option (List Int)
  | [] => some []
  | t :: ts =>
    if !pyIsdigit t || t.length != 4 then none
    else
      if (natOfDigits t.data : Int) < MIN_YEAR ∨ (natOfDigits t.data : Int) > MAX_YEAR then none
      else (yearsAux ts).map (fun l => (natOfDigits t.data : Int) :: l)

/-- website.py validate_years: None both for a missing and for a failing
parameter. -/
def validate_years (year : Option String) : Option (List Int) :=
  match year with
  | none => none
  | some y => if y = "" then none else yearsAux (pySplit y)

/-- The loop "for i in range(len(operators)): parts += [conditions[i],
operators[i]]" of website.py, with the index made explicit; reading past
the end of conditions raises IndexError. -/
def clausePartsAux (conditions : List String) : List String → Nat → Except PyErr (List String)
  | [], _ => Except.ok []
  | op :: ops, i =>
    match conditions.get? i with
    | none => Except.error PyErr.indexError
    | some c =>
      match clausePartsAux conditions ops (i + 1) with
      | Except.error e => Except.error e
      | Except.ok rest => Except.ok (c :: op :: rest)

/-- website.py _build_like_conditions: one "field LIKE ?" condition and one
bound pattern per keyword, conditions interleaved with the operators, the
last condition appended when any exists, and "1=1" for no conditions. -/
def _build_like_conditions (keywords operators : List String) (field_name : String) :
    Except PyErr (String × List String) :=
  let params := keywords.map (fun kw => "%" ++ kw ++ "%")
  let conditions := keywords.map (fun _ => field_name ++ " LIKE ?")
  match clausePartsAux conditions operators 0 with
  | Except.error e => Except.error e
  | Except.ok parts0 =>
    let parts :=
      match conditions.getLast? with
      | some c => parts0 ++ [c]
      | none => parts0
    let clause := if conditions.isEmpty then "1=1" else pyJoin " " parts
    Except.ok (clause, params)

/-- website.py build_search_query: title chain OR abstract chain, then the
optional conference IN and year IN clauses; Python truthiness makes both a
missing and an empty filter list skip their clause. -/
def build_search_query (keywords operators : List String)
    (source_list : Option (List String)) (year_list : Option (List Int)) :
    Except PyErr (String × List Value) :=
  match _build_like_conditions keywords operators "title" with
  | Except.error e => Except.error e
  | Except.ok tc =>
    match _build_like_conditions keywords operators "abstract" with
    | Except.error e => Except.error e
    | Except.ok ac =>
      let sql0 := "((" ++ tc.1 ++ ") OR (" ++ ac.1 ++ "))"
      let params0 := tc.2.map Value.str ++ ac.2.map Value.str
      let step1 :=
        match source_list with
        | some (s :: ss) =>
          (sql0 ++ " AND conference IN (" ++ pyJoin "," ((s :: ss).map (fun _ => "?")) ++ ")",
           params0 ++ (s :: ss).map Value.str)
        | _ => (sql0, params0)
      let step2 :=
        match year_list with
        | some (y :: ys) =>
          (step1.1 ++ " AND year IN (" ++ pyJoin "," ((y :: ys).map (fun _ => "?")) ++ ")",
           step1.2 ++ (y :: ys).map Value.int)
        | _ => step1
      Except.ok step2

/-- One cursor.execute call: the statement text and the bound values. -/
structure Call where
  sql : String
  args : List Value
deriving DecidableEq, Repr

/-- The JSON envelope the search endpoints build (the dict that json.dumps
serializes; rows and total are absent from failure envelopes). -/
structure Response where
  code : Nat
  msg : String
  rows : Option (List (List (String × Value)))
  total : Option Value
deriving DecidableEq, Repr

/-- The JSON envelope of the abstract endpoint. -/
structure AbsResponse where
  code : Nat
  msg : String
  data : Option (List (List Value))
deriving DecidableEq, Repr

/-- The storage engine: statement text and bound values to either an engine
error message (sqlite3.Error, which the code catches) or result rows. -/
def Engine : Type := String → List Value → Except String (List (List Value))

/-- website.py search_papers: count query, then the data query with limit
and offset appended after the compiled params; engine errors are caught and
become code 1 envelopes; a count result with no row or an empty row would
fault (fetchone()[0]).  The trace records each executed statement. -/
def search_papers (engine : Engine) (where_clause : String) (params : List Value)
    (limit offset : Int) : Except PyErr (Response × List Call) :=
  let count_sql := "SELECT COUNT(*) FROM papers WHERE " ++ where_clause
  match engine count_sql params with
  | Except.error e =>
    Except.ok ({ code := 1, msg := e, rows := none, total := none }, [⟨count_sql, params⟩])
  | Except.ok countRows =>
    match countRows with
    | [] => Except.error PyErr.typeError
    | firstRow :: _ =>
      match firstRow with
      | [] => Except.error PyErr.indexError
      | total :: _ =>
        let data_sql := "SELECT * FROM papers WHERE " ++ where_clause ++
          " ORDER BY year DESC LIMIT ? OFFSET ?"
        let data_args := params ++ [Value.int limit, Value.int offset]
        match engine data_sql data_args with
        | Except.error e =>
          Except.ok ({ code := 1, msg := e, rows := none, total := none },
            [⟨count_sql, params⟩, ⟨data_sql, data_args⟩])
        | Except.ok dataRows =>
          let key_list := ["id", "conference", "year", "volume", "title",
            "href", "origin", "abstract", "bib", "cat"]
          let resp : Response :=
            { code := 0, msg := "success",
              rows := some (dataRows.map (fun row => key_list.zip row)),
              total := some total }
          Except.ok (resp, [⟨count_sql, params⟩, ⟨data_sql, data_args⟩])

/-- Python truthiness of the optional request parameters s and y. -/
def pyTruthy : Option String → Bool
  | none => false
  | some s => !(s == "")

/-- website.py get_info, the /search route: validation in source order, each
rejection returning a code 1 envelope with no storage access, then parse,
build and execute.  A fault escaping build_search_query is uncaught. -/
def get_info (engine : Engine) (q : String) (source year : Option String)
    (offset limit : String) : Except PyErr (Response × List Call) :=
  match validate_keyword q with
  | some err => Except.ok ({ code := 1, msg := err, rows := none, total := none }, [])
  | none =>
    match validate_pagination offset limit with
    | none =>
      Except.ok ({ code := 1, msg := "Invalid offset/limit", rows := none, total := none }, [])
    | some pg =>
      if source = some "" ∨ (pyTruthy source = true ∧ validate_conferences source = none) then
        Except.ok ({ code := 1, msg := "Invalid conference", rows := none, total := none }, [])
      else
        if year = some "" ∨ (pyTruthy year = true ∧ validate_years year = none) then
          Except.ok ({ code := 1, msg := "Invalid year format", rows := none, total := none }, [])
        else
          match build_search_query (parse_keywords q).1 (parse_keywords q).2
              (validate_conferences source) (validate_years year) with
          | Except.error e => Except.error e
          | Except.ok bq => search_papers engine bq.1 bq.2 pg.2 pg.1

/-- website.py get_paper_abstract: one parameterized lookup, engine errors
caught into a code 1 envelope. -/
def get_paper_abstract (engine : Engine) (paper_id : Int) : AbsResponse :=
  match engine "SELECT title, abstract FROM papers WHERE id=?" [Value.int paper_id] with
  | Except.error e => { code := 1, msg := e, data := none }
  | Except.ok results => { code := 0, msg := "success", data := some results }

/-- website.py get_abs, the /abstract route: the id must parse with int()
and be positive, otherwise a code 1 envelope; then the lookup. -/
def get_abs (engine : Engine) (q : String) : AbsResponse :=
  match pyInt q with
  | none => { code := 1, msg := "Invalid paper id", data := none }
  | some pid =>
    if pid ≤ 0 then { code := 1, msg := "Invalid paper id", data := none }
    else get_paper_abstract engine pid

/-- A stored paper row, with the column set of the papers table. -/
structure Paper where
  id : Int
  conference : String
  year : Int
  volume : Int
  title : String
  href : String
  origin : String
  abstract : String
  bib : String
  cat : String
deriving DecidableEq, Repr

/-- Reference semantics of the storage engine for the single fixed statement
the abstract endpoint executes: equality filter on the id column of a table
of papers, projecting title and abstract. -/
def absEngine (db : List Paper) : Engine := fun sql args =>
  if sql = "SELECT title, abstract FROM papers WHERE id=?" then
    match args with
    | [Value.int pid] =>
      Except.ok ((db.filter (fun p => p.id == pid)).map
        (fun p => [Value.str p.title, Value.str p.abstract]))
    | _ => Except.error "bindings mismatch"
  else Except.error "unsupported statement"

/-- Number of positional placeholders in a piece of statement text. -/
def countPlaceholders (s : String) : Nat := s.data.count '?'

/-- Number of delimiter characters in a raw query. -/
def countDelims (q : String) : Nat := q.data.countP (fun c => c = '+' || c = '|')

/-- The condition and operator interleaving the loop of
_build_like_conditions produces when every condition is the same string. -/
def chainParts (c : String) (ops : List String) : List String :=
  ops.foldr (fun op acc => c :: op :: acc) []

/-- The clause component of _build_like_conditions as a function of the
number of keywords alone; proved below to agree with the source function,
which establishes that the expression text carries no keyword content. -/
def likeResult (n : Nat) (ops : List String) (f : String) : Except PyErr String :=
  match clausePartsAux (List.replicate n (f ++ " LIKE ?")) ops 0 with
  | Except.error e => Except.error e
  | Except.ok parts0 =>
    if n = 0 then Except.ok "1=1"
    else Except.ok (pyJoin " " (parts0 ++ [f ++ " LIKE ?"]))

/-- Characters allowed in compiled expression text: letters of field,
keyword-operator and SQL keyword names, the digit of 1=1, space,
parentheses, placeholder, comma and the equals sign. -/
def sqlShapeChar (c : Char) : Bool :=
  c.isAlpha || c = '1' || c = ' ' || c = '(' || c = ')' || c = '?' || c = ',' || c = '='

/-- An engine answering every statement with a single row holding 0; used
to instantiate theorems at concrete inputs. -/
def constEngine : Engine := fun _ _ => Except.ok [[Value.int 0]]

/-- An engine failing every statement with an sqlite-style error message;
used to instantiate theorems about the storage-error path. -/
def errEngine : Engine := fun _ _ => Except.error "database is locked"

/-- Number of filter values an optional filter list contributes (Python
truthiness: a missing and an empty list both contribute none). -/
def optLen : Option (List α) → Nat
  | none => 0
  | some l => l.length

/-- The disjunction of the two instantiated chains. -/
def baseExpr (tcl acl : String) : String := "((" ++ tcl ++ ") OR (" ++ acl ++ "))"

/-- The optional conference IN clause appended to an expression. -/
def confExpr (b : String) (ks : Nat) : String :=
  if ks = 0 then b
  else b ++ " AND conference IN (" ++ pyJoin "," (List.replicate ks "?") ++ ")"

/-- The optional year IN clause appended to an expression. -/
def yearExpr (b : String) (ky : Nat) : String :=
  if ky = 0 then b
  else b ++ " AND year IN (" ++ pyJoin "," (List.replicate ky "?") ++ ")"

/-- The expression text build_search_query produces, as a function of the
two instantiated chains and the filter sizes alone. -/
def fullExpr (tcl acl : String) (ks ky : Nat) : String :=
  yearExpr (confExpr (baseExpr tcl acl) ks) ky

/-- The bound-value list build_search_query produces: the two pattern runs,
then the venue codes, then the years. -/
def fullParams (ts : List String) (ss : Option (List String)) (ys : Option (List Int)) :
    List Value :=
  let p0 := (ts.map (fun kw => "%" ++ kw ++ "%")).map Value.str ++
    (ts.map (fun kw => "%" ++ kw ++ "%")).map Value.str
  let p1 := match ss with
    | some (s :: ss') => p0 ++ (s :: ss').map Value.str
    | _ => p0
  match ys with
  | some (y :: ys') => p1 ++ (y :: ys').map Value.int
  | _ => p1

end PaperSearcher

namespace PaperSearcher

/-! Helper lemmas about strings, joins and the clause loop. -/

theorem countPlaceholders_append (a b : String) :
    countPlaceholders (a ++ b) = countPlaceholders a + countPlaceholders b := by
  simp [countPlaceholders, String.data_append, List.count_append]

theorem mem_data_append {c : Char} {a b : String} :
    c ∈ (a ++ b).data ↔ c ∈ a.data ∨ c ∈ b.data := by
  simp [String.data_append]

theorem pyJoin_countPlaceholders (sep : String) (hsep : countPlaceholders sep = 0)
    (parts : List String) :
    countPlaceholders (pyJoin sep parts) = (parts.map countPlaceholders).sum := by
  induction parts with
  | nil => simp [pyJoin, countPlaceholders]
  | cons x xs ih =>
    cases xs with
    | nil => simp [pyJoin]
    | cons y ys =>
      simp only [pyJoin] at ih ⊢
      rw [countPlaceholders_append, countPlaceholders_append, hsep, ih]
      simp only [List.map_cons, List.sum_cons]
      omega

theorem pyJoin_chars (P : Char → Prop) (sep : String) (parts : List String)
    (hsep : ∀ c ∈ sep.data, P c) (hparts : ∀ p ∈ parts, ∀ c ∈ p.data, P c) :
    ∀ c ∈ (pyJoin sep parts).data, P c := by
  induction parts with
  | nil => intro c hc; simp [pyJoin] at hc
  | cons x xs ih =>
    cases xs with
    | nil =>
      intro c hc
      exact hparts x (by simp) c hc
    | cons y ys =>
      intro c hc
      simp only [pyJoin] at hc
      rcases mem_data_append.mp hc with h | h
      · rcases mem_data_append.mp h with h2 | h2
        · exact hparts x (by simp) c h2
        · exact hsep c h2
      · exact ih (fun p hp => hparts p (List.mem_cons_of_mem x hp)) c h

theorem clausePartsAux_replicate (c : String) (ops : List String) :
    ∀ (n i : Nat), i + ops.length ≤ n →
      clausePartsAux (List.replicate n c) ops i = Except.ok (chainParts c ops) := by
  induction ops with
  | nil => intro n i _; simp [clausePartsAux, chainParts]
  | cons op rest ih =>
    intro n i h
    have hi : i < n := by simp [List.length_cons] at h; omega
    have hget : (List.replicate n c).get? i = some c := by
      simp [List.get?_eq_getElem?, List.getElem?_replicate, hi]
    simp only [clausePartsAux, hget]
    rw [ih n (i + 1) (by simp [List.length_cons] at h ⊢; omega)]
    simp [chainParts]

theorem chainParts_mem (c : String) (ops : List String) :
    ∀ p ∈ chainParts c ops, p = c ∨ p ∈ ops := by
  induction ops with
  | nil => intro p hp; simp [chainParts] at hp
  | cons op rest ih =>
    intro p hp
    simp only [chainParts, List.foldr_cons] at hp
    rw [List.mem_cons, List.mem_cons] at hp
    rcases hp with h1 | h1 | h1
    · exact Or.inl h1
    · exact Or.inr (h1 ▸ List.mem_cons_self op rest)
    · rcases ih p h1 with h2 | h2
      · exact Or.inl h2
      · exact Or.inr (List.mem_cons_of_mem op h2)

theorem chainParts_cp_sum (c : String) (ops : List String)
    (hops : ∀ op ∈ ops, countPlaceholders op = 0) :
    ((chainParts c ops).map countPlaceholders).sum = ops.length * countPlaceholders c := by
  induction ops with
  | nil => simp [chainParts]
  | cons op rest ih =>
    simp only [chainParts, List.foldr_cons] at ih ⊢
    rw [List.map_cons, List.map_cons, List.sum_cons, List.sum_cons]
    rw [hops op (by simp), ih (fun o ho => hops o (List.mem_cons_of_mem op ho))]
    rw [List.length_cons]
    ring

theorem getLast?_replicate_succ (c : String) (n : Nat) :
    (List.replicate (n + 1) c).getLast? = some c := by
  induction n with
  | zero => rfl
  | succ m ih =>
    rw [List.replicate_succ]
    rw [List.getLast?_cons]
    rw [List.replicate_succ] at ih ⊢
    simp_all [List.getLast?_cons]

end PaperSearcher

namespace PaperSearcher

theorem build_like_spec (keywords operators : List String) (f : String) :
    _build_like_conditions keywords operators f =
      (likeResult keywords.length operators f).map
        (fun cl => (cl, keywords.map (fun kw => "%" ++ kw ++ "%"))) := by
  unfold _build_like_conditions likeResult
  rw [List.map_const' keywords (f ++ " LIKE ?")]
  cases h : clausePartsAux (List.replicate keywords.length (f ++ " LIKE ?")) operators 0 with
  | error e => simp only [h]; rfl
  | ok parts0 =>
    simp only [h]
    cases keywords with
    | nil => rfl
    | cons k ks =>
      have h1 : (k :: ks).length = ks.length + 1 := rfl
      rw [h1, getLast?_replicate_succ]
      have h2 : (List.replicate (ks.length + 1) (f ++ " LIKE ?")).isEmpty = false := by
        rw [List.replicate_succ]; rfl
      rw [h2]
      simp [Except.map]

theorem likeResult_of_aligned (ops : List String) (f : String) :
    likeResult (ops.length + 1) ops f =
      Except.ok (pyJoin " " (chainParts (f ++ " LIKE ?") ops ++ [f ++ " LIKE ?"])) := by
  unfold likeResult
  rw [clausePartsAux_replicate (f ++ " LIKE ?") ops (ops.length + 1) 0 (by omega)]
  simp

theorem parseAux_operator_count (cs : List Char) : ∀ tmp : List Char,
    (parseAux cs tmp).2.length = cs.countP (fun c => c = '+' || c = '|') ∧
    (parseAux cs tmp).1.length ≤ cs.countP (fun c => c = '+' || c = '|') + 1 := by
  induction cs with
  | nil =>
    intro tmp
    simp only [parseAux, List.countP_nil]
    constructor
    · rfl
    · split <;> simp
  | cons c cs ih =>
    intro tmp
    by_cases h1 : c = '+'
    · have hcnt : List.countP (fun x => x = '+' || x = '|') (c :: cs) =
          List.countP (fun x => x = '+' || x = '|') cs + 1 := by
        simp [List.countP_cons, h1]
      obtain ⟨ih1, ih2⟩ := ih []
      simp only [parseAux, if_pos h1, hcnt]
      constructor
      · simp only [List.length_cons]
        omega
      · rw [List.length_append]
        have hle : (if pyStrip (String.mk tmp) = "" then ([] : List String)
            else [pyStrip (String.mk tmp)]).length ≤ 1 := by split <;> simp
        omega
    · by_cases h2 : c = '|'
      · have hcnt : List.countP (fun x => x = '+' || x = '|') (c :: cs) =
            List.countP (fun x => x = '+' || x = '|') cs + 1 := by
          simp [List.countP_cons, h2]
        obtain ⟨ih1, ih2⟩ := ih []
        simp only [parseAux, if_neg h1, if_pos h2, hcnt]
        constructor
        · simp only [List.length_cons]
          omega
        · rw [List.length_append]
          have hle : (if pyStrip (String.mk tmp) = "" then ([] : List String)
              else [pyStrip (String.mk tmp)]).length ≤ 1 := by split <;> simp
          omega
      · have hcnt : List.countP (fun x => x = '+' || x = '|') (c :: cs) =
            List.countP (fun x => x = '+' || x = '|') cs := by
          simp [List.countP_cons, h1, h2]
        simp only [parseAux, if_neg h1, if_neg h2, hcnt]
        exact ih (tmp ++ [c])

/-- Claim C2 counterexample: on the raw query "a++b" the parser returns two
and-operators for the two terms, so len(operators) is 2 while
max(len(terms) - 1, 0) is 1: consecutive delimiters do break the
alignment. -/
theorem parse_keywords_alignment_counterexample :
    parse_keywords "a++b" = (["a", "b"], ["and", "and"]) ∧
    (parse_keywords "a++b").2.length ≠ max ((parse_keywords "a++b").1.length - 1) 0 := by
  have h : parse_keywords "a++b" = (["a", "b"], ["and", "and"]) := by rfl
  exact ⟨h, by rw [h]; decide⟩

/-- Claim C2 (amended): parse_keywords records one operator per delimiter
character of the raw query, so len(operators) equals the number of
delimiters; len(terms) is at most that number plus one (hence
len(operators) is at least len(terms) - 1, with excess exactly at empty
segments such as consecutive delimiters), and "" yields ([], []). -/
theorem parse_keywords_operator_count (q : String) :
    (parse_keywords q).2.length = countDelims q ∧
    (parse_keywords q).1.length ≤ countDelims q + 1 ∧
    parse_keywords "" = ([], []) :=
  ⟨(parseAux_operator_count q.data []).1, (parseAux_operator_count q.data []).2, rfl⟩

/-- Claim C4 counterexample: with a non-empty operator list, compiling an
empty term list raises an uncaught index error instead of degenerating to
the always-true 1=1 chain. -/
theorem build_like_empty_terms_counterexample :
    _build_like_conditions [] ["and"] "title" = Except.error PyErr.indexError := rfl

/-- Claim C4 (amended): compiling an empty term list yields the always-true
1=1 chain, not an error, exactly when the operator list is also empty; an
empty term list together with a non-empty operator list faults with an
index error in the condition-interleaving loop. -/
theorem build_like_empty_terms (f : String) (ops : List String) (h : ops ≠ []) :
    _build_like_conditions [] [] f = Except.ok ("1=1", []) ∧
    _build_like_conditions [] ops f = Except.error PyErr.indexError := by
  refine ⟨rfl, ?_⟩
  cases ops with
  | nil => exact absurd rfl h
  | cons o os => rfl

theorem build_like_empty_terms_witness :
    _build_like_conditions [] [] "title" = Except.ok ("1=1", []) ∧
    _build_like_conditions [] ["and"] "title" = Except.error PyErr.indexError :=
  build_like_empty_terms "title" ["and"] (by decide)

/-- Claim C6 counterexample: the limit string "0" parses and is kept as 0,
so the value used for execution is not clamped into 1..MAX_LIMIT: only the
upper bound is enforced by validate_pagination. -/
theorem validate_pagination_limit_counterexample :
    validate_pagination "0" "0" = some (0, 0) ∧ ¬ ((1 : Int) ≤ 0) := by
  exact ⟨rfl, by decide⟩

/-- Claim C6 (amended): both pagination strings must parse as integers
(otherwise the pair is rejected); a parsed offset is clamped upward to at
least 0 and never rejected for being negative; a parsed limit is clamped
downward to at most MAX_LIMIT = 100, but is not raised to 1, so the
executed limit can be 0 or negative. -/
theorem validate_pagination_clamps (offset limit : String) :
    (validate_pagination offset limit = none ↔ pyInt offset = none ∨ pyInt limit = none) ∧
    ∀ o l : Int, validate_pagination offset limit = some (o, l) →
      ∃ oi li : Int, pyInt offset = some oi ∧ pyInt limit = some li ∧
        o = max 0 oi ∧ l = min MAX_LIMIT li ∧ 0 ≤ o ∧ l ≤ MAX_LIMIT := by
  unfold validate_pagination
  cases ho : pyInt offset with
  | none => simp
  | some oi =>
    cases hl : pyInt limit with
    | none => simp
    | some li =>
      constructor
      · simp
      · intro o l h
        simp only [Option.some.injEq, Prod.mk.injEq] at h
        refine ⟨oi, li, rfl, rfl, h.1.symm, h.2.symm, ?_, ?_⟩
        · rw [← h.1]; exact le_max_left 0 oi
        · rw [← h.2]; exact min_le_left MAX_LIMIT li

theorem validate_pagination_clamps_witness :
    ∃ oi li : Int, pyInt "-5" = some oi ∧ pyInt "500" = some li ∧
      (0 : Int) = max 0 oi ∧ (100 : Int) = min MAX_LIMIT li ∧
      (0 : Int) ≤ 0 ∧ (100 : Int) ≤ MAX_LIMIT :=
  (validate_pagination_clamps "-5" "500").2 0 100 (by rfl)

end PaperSearcher

namespace PaperSearcher

theorem chars_append (P : Char → Bool) (a b : String)
    (ha : ∀ c ∈ a.data, P c = true) (hb : ∀ c ∈ b.data, P c = true) :
    ∀ c ∈ (a ++ b).data, P c = true :=
  fun c hc => (mem_data_append.mp hc).elim (ha c) (hb c)

theorem likeResult_nil (f : String) : likeResult 0 [] f = Except.ok "1=1" := rfl

theorem build_search_query_spec (ts ops : List String) (ss : Option (List String))
    (ys : Option (List Int)) :
    build_search_query ts ops ss ys =
      match likeResult ts.length ops "title", likeResult ts.length ops "abstract" with
      | Except.ok tcl, Except.ok acl =>
        Except.ok (fullExpr tcl acl (optLen ss) (optLen ys), fullParams ts ss ys)
      | Except.error e, _ => Except.error e
      | Except.ok _, Except.error e => Except.error e := by
  unfold build_search_query
  rw [build_like_spec ts ops "title", build_like_spec ts ops "abstract"]
  cases h1 : likeResult ts.length ops "title" with
  | error e => simp only [h1]; rfl
  | ok tcl =>
    cases h2 : likeResult ts.length ops "abstract" with
    | error e => simp only [h1, h2]; rfl
    | ok acl =>
      simp only [h1, h2, Except.map]
      rcases ss with _ | ⟨_ | ⟨s, ss'⟩⟩ <;> rcases ys with _ | ⟨_ | ⟨y, ys'⟩⟩ <;>
        simp [fullExpr, yearExpr, confExpr, baseExpr, fullParams, optLen,
          List.map_const', List.replicate_succ]

theorem optLen_congr {α β : Type} (o1 : Option (List α)) (o2 : Option (List β))
    (h : o1.map List.length = o2.map List.length) : optLen o1 = optLen o2 := by
  cases o1 with
  | none =>
    cases o2 with
    | none => rfl
    | some l2 => simp at h
  | some l1 =>
    cases o2 with
    | none => simp at h
    | some l2 =>
      simp only [Option.map_some'] at h
      simp only [optLen]
      exact Option.some.inj h

/-- Claim C1: the compiled expression text never depends on the literal
values that reach the storage call as bound parameters: for any two term
lists of equal length with the same operator list and filters of the same
sizes, build_search_query produces identical expression text (the literals
influence only the bound-value list). -/
theorem build_search_query_expression_uniform
    (ts1 ts2 ops : List String) (ss1 ss2 : Option (List String)) (ys1 ys2 : Option (List Int))
    (hts : ts1.length = ts2.length)
    (hss : ss1.map List.length = ss2.map List.length)
    (hys : ys1.map List.length = ys2.map List.length) :
    (build_search_query ts1 ops ss1 ys1).map Prod.fst =
      (build_search_query ts2 ops ss2 ys2).map Prod.fst := by
  have hs := optLen_congr ss1 ss2 hss
  have hy := optLen_congr ys1 ys2 hys
  rw [build_search_query_spec, build_search_query_spec, hts, hs, hy]
  cases likeResult ts2.length ops "title" with
  | error e => rfl
  | ok tcl =>
    cases likeResult ts2.length ops "abstract" with
    | error e => rfl
    | ok acl => rfl

theorem build_search_query_expression_uniform_witness :
    (build_search_query ["aa"] [] (some ["CCS"]) none).map Prod.fst =
      (build_search_query ["bb"] [] (some ["SP"]) none).map Prod.fst :=
  build_search_query_expression_uniform ["aa"] ["bb"] [] (some ["CCS"]) (some ["SP"])
    none none rfl rfl rfl

end PaperSearcher

namespace PaperSearcher

theorem replicate_placeholders_cp (k : Nat) :
    countPlaceholders (pyJoin "," (List.replicate k "?")) = k := by
  rw [pyJoin_countPlaceholders "," (by decide)]
  rw [List.map_replicate]
  have h : countPlaceholders "?" = 1 := by decide
  rw [h, List.sum_replicate, smul_eq_mul, Nat.mul_one]

theorem fullExpr_cp (tcl acl : String) (ks ky : Nat) :
    countPlaceholders (fullExpr tcl acl ks ky) =
      countPlaceholders tcl + countPlaceholders acl + ks + ky := by
  have l1 : countPlaceholders "((" = 0 := by decide
  have l2 : countPlaceholders ") OR (" = 0 := by decide
  have l3 : countPlaceholders "))" = 0 := by decide
  have l4 : countPlaceholders " AND conference IN (" = 0 := by decide
  have l5 : countPlaceholders " AND year IN (" = 0 := by decide
  have l6 : countPlaceholders ")" = 0 := by decide
  by_cases h1 : ks = 0 <;> by_cases h2 : ky = 0 <;>
    simp [fullExpr, yearExpr, confExpr, baseExpr, h1, h2, countPlaceholders_append,
      replicate_placeholders_cp, l1, l2, l3, l4, l5, l6]

theorem replicate_placeholders_chars (k : Nat) :
    ∀ c ∈ (pyJoin "," (List.replicate k "?")).data, sqlShapeChar c = true := by
  apply pyJoin_chars
  · decide
  · intro p hp
    rw [List.eq_of_mem_replicate hp]
    decide

theorem fullExpr_chars (tcl acl : String) (ks ky : Nat)
    (h1 : ∀ c ∈ tcl.data, sqlShapeChar c = true)
    (h2 : ∀ c ∈ acl.data, sqlShapeChar c = true) :
    ∀ c ∈ (fullExpr tcl acl ks ky).data, sqlShapeChar c = true := by
  have hbase : ∀ c ∈ ("((" ++ tcl ++ ") OR (" ++ acl ++ "))").data, sqlShapeChar c = true := by
    refine chars_append _ _ _ ?_ (by decide)
    refine chars_append _ _ _ ?_ h2
    refine chars_append _ _ _ ?_ (by decide)
    exact chars_append _ _ _ (by decide) h1
  unfold fullExpr yearExpr confExpr baseExpr
  by_cases hk : ks = 0 <;> by_cases hy : ky = 0
  · rw [if_pos hk, if_pos hy]
    exact hbase
  · rw [if_pos hk, if_neg hy]
    refine chars_append _ _ _ ?_ (by decide)
    refine chars_append _ _ _ ?_ (replicate_placeholders_chars ky)
    exact chars_append _ _ _ hbase (by decide)
  · rw [if_neg hk, if_pos hy]
    refine chars_append _ _ _ ?_ (by decide)
    refine chars_append _ _ _ ?_ (replicate_placeholders_chars ks)
    exact chars_append _ _ _ hbase (by decide)
  · rw [if_neg hk, if_neg hy]
    refine chars_append _ _ _ ?_ (by decide)
    refine chars_append _ _ _ ?_ (replicate_placeholders_chars ky)
    refine chars_append _ _ _ ?_ (by decide)
    refine chars_append _ _ _ ?_ (by decide)
    refine chars_append _ _ _ ?_ (replicate_placeholders_chars ks)
    exact chars_append _ _ _ hbase (by decide)

theorem fullParams_length (ts : List String) (ss : Option (List String))
    (ys : Option (List Int)) :
    (fullParams ts ss ys).length = ts.length + ts.length + optLen ss + optLen ys := by
  rcases ss with _ | ⟨_ | ⟨s, ss'⟩⟩ <;> rcases ys with _ | ⟨_ | ⟨y, ys'⟩⟩ <;>
    simp [fullParams, optLen] <;> omega

theorem likeResult_aligned_props (ops : List String) (f : String)
    (hops : ∀ op ∈ ops, op = "and" ∨ op = "or")
    (hf : ∀ c ∈ f.data, sqlShapeChar c = true) (hfc : countPlaceholders f = 0) :
    ∃ cl, likeResult (ops.length + 1) ops f = Except.ok cl ∧
      countPlaceholders cl = ops.length + 1 ∧ ∀ c ∈ cl.data, sqlShapeChar c = true := by
  have hopcp : ∀ op ∈ ops, countPlaceholders op = 0 := by
    intro op hop
    rcases hops op hop with rfl | rfl <;> decide
  have hcond : countPlaceholders (f ++ " LIKE ?") = 1 := by
    rw [countPlaceholders_append, hfc]
    decide
  have hcondchars : ∀ c ∈ (f ++ " LIKE ?").data, sqlShapeChar c = true :=
    chars_append _ _ _ hf (by decide)
  refine ⟨_, likeResult_of_aligned ops f, ?_, ?_⟩
  · rw [pyJoin_countPlaceholders " " (by decide)]
    rw [List.map_append, List.sum_append]
    rw [chainParts_cp_sum _ _ hopcp]
    simp only [List.map_cons, List.map_nil, List.sum_cons, List.sum_nil, hcond]
    omega
  · apply pyJoin_chars
    · decide
    · intro p hp c hc
      rcases List.mem_append.mp hp with h | h
      · rcases chainParts_mem _ _ p h with h2 | h2
        · subst h2
          exact hcondchars c hc
        · rcases hops p h2 with rfl | rfl
          · exact (show ∀ x ∈ ("and" : String).data, sqlShapeChar x = true by decide) c hc
          · exact (show ∀ x ∈ ("or" : String).data, sqlShapeChar x = true by decide) c hc
      · have h2 : p = f ++ " LIKE ?" := by simpa using h
        subst h2
        exact hcondchars c hc

/-- Claim C3 counterexample: the parser output for the raw query "a+" is
(["a"], ["and"]), and compiling it duplicates the single condition: the
expression carries four placeholders while only two values are bound, so
placeholder count and bound-value count disagree. -/
theorem build_search_query_placeholder_mismatch_counterexample :
    parse_keywords "a+" = (["a"], ["and"]) ∧
    build_search_query ["a"] ["and"] none none =
      Except.ok ("((title LIKE ? and title LIKE ?) OR (abstract LIKE ? and abstract LIKE ?))",
        [Value.str "%a%", Value.str "%a%"]) ∧
    countPlaceholders
        "((title LIKE ? and title LIKE ?) OR (abstract LIKE ? and abstract LIKE ?))" ≠
      ([Value.str "%a%", Value.str "%a%"] : List Value).length := by
  refine ⟨rfl, rfl, by decide⟩

/-- Claim C3 (amended): for parser outputs in which the operators are one
fewer than the terms (the aligned case; the parser can also emit excess
operators, see the counterexample) and every operator is and/or, together
with any filter choice, build_search_query returns (expression,
bound_values) whose expression consists only of field names, SQL and
boolean operator words, parentheses, 1=1 and positional placeholders, and
whose placeholder count equals the number of bound values, in matching
left-to-right construction order. -/
theorem build_search_query_placeholders_match
    (ts ops : List String) (ss : Option (List String)) (ys : Option (List Int))
    (halign : ops.length + 1 = ts.length ∨ (ts = [] ∧ ops = []))
    (hops : ∀ op ∈ ops, op = "and" ∨ op = "or") :
    ∃ sql params, build_search_query ts ops ss ys = Except.ok (sql, params) ∧
      countPlaceholders sql = params.length ∧
      ∀ c ∈ sql.data, sqlShapeChar c = true := by
  rw [build_search_query_spec]
  rcases halign with hlen | ⟨hts, hops0⟩
  · obtain ⟨tcl, htcl, htc, htch⟩ := likeResult_aligned_props ops "title" hops (by decide) (by decide)
    obtain ⟨acl, hacl, hac, hach⟩ :=
      likeResult_aligned_props ops "abstract" hops (by decide) (by decide)
    rw [← hlen, htcl, hacl]
    refine ⟨_, _, rfl, ?_, ?_⟩
    · rw [fullExpr_cp, fullParams_length, htc, hac, ← hlen]
    · exact fullExpr_chars tcl acl _ _ htch hach
  · subst hts
    subst hops0
    rw [List.length_nil, likeResult_nil]
    refine ⟨_, _, rfl, ?_, ?_⟩
    · rw [fullExpr_cp, fullParams_length]
      have h1 : countPlaceholders "1=1" = 0 := by decide
      rw [h1]
      simp
    · refine fullExpr_chars _ _ _ _ ?_ ?_
      · decide
      · decide

theorem build_search_query_placeholders_match_witness :
    ∃ sql params,
      build_search_query ["a", "b"] ["and"] (some ["CCS"]) (some [2023]) =
        Except.ok (sql, params) ∧
      countPlaceholders sql = params.length ∧
      ∀ c ∈ sql.data, sqlShapeChar c = true :=
  build_search_query_placeholders_match ["a", "b"] ["and"] (some ["CCS"]) (some [2023])
    (Or.inl rfl) (by decide)

end PaperSearcher

namespace PaperSearcher

theorem contains_iff (l : List String) (a : String) : l.contains a = true ↔ a ∈ l := by
  simp

theorem get_info_rejects (engine : Engine) (q : String) (s y : Option String)
    (off lim : String)
    (h : validate_keyword q ≠ none ∨ validate_pagination off lim = none ∨
      s = some "" ∨ (pyTruthy s = true ∧ validate_conferences s = none) ∨
      y = some "" ∨ (pyTruthy y = true ∧ validate_years y = none)) :
    ∃ resp, get_info engine q s y off lim = Except.ok (resp, []) ∧ resp.code = 1 := by
  unfold get_info
  cases hk : validate_keyword q with
  | some err => exact ⟨_, rfl, rfl⟩
  | none =>
    cases hp : validate_pagination off lim with
    | none => exact ⟨_, rfl, rfl⟩
    | some pg =>
      dsimp only
      by_cases hs : s = some "" ∨ (pyTruthy s = true ∧ validate_conferences s = none)
      · rw [if_pos hs]
        exact ⟨_, rfl, rfl⟩
      · rw [if_neg hs]
        by_cases hy : y = some "" ∨ (pyTruthy y = true ∧ validate_years y = none)
        · rw [if_pos hy]
          exact ⟨_, rfl, rfl⟩
        · exfalso
          rcases h with h | h | h | h | h | h
          · exact h hk
          · rw [hp] at h
            exact Option.noConfusion h
          · exact hs (Or.inl h)
          · exact hs (Or.inr h)
          · exact hy (Or.inl h)
          · exact hy (Or.inr h)

theorem yearsAux_ok (toks : List String)
    (h : ∀ t ∈ toks, pyIsdigit t = true ∧ t.length = 4 ∧
      MIN_YEAR ≤ (natOfDigits t.data : Int) ∧ (natOfDigits t.data : Int) ≤ MAX_YEAR) :
    yearsAux toks = some (toks.map (fun t => (natOfDigits t.data : Int))) := by
  induction toks with
  | nil => rfl
  | cons t ts ih =>
    obtain ⟨h1, h2, h3, h4⟩ := h t (List.mem_cons_self t ts)
    have hcond : ¬ ((!pyIsdigit t || t.length != 4) = true) := by
      rw [h1, h2]
      exact Bool.false_ne_true
    have hrange : ¬ ((natOfDigits t.data : Int) < MIN_YEAR ∨
        (natOfDigits t.data : Int) > MAX_YEAR) := by
      rintro (hl | hl)
      · exact absurd h3 (not_le.mpr hl)
      · exact absurd h4 (not_le.mpr hl)
    unfold yearsAux
    rw [if_neg hcond, if_neg hrange, ih (fun u hu => h u (List.mem_cons_of_mem t hu))]
    rfl

theorem yearsAux_bad (toks : List String)
    (h : ∃ t ∈ toks, ¬ (pyIsdigit t = true ∧ t.length = 4 ∧
      MIN_YEAR ≤ (natOfDigits t.data : Int) ∧ (natOfDigits t.data : Int) ≤ MAX_YEAR)) :
    yearsAux toks = none := by
  induction toks with
  | nil => simp at h
  | cons t ts ih =>
    unfold yearsAux
    by_cases hd : (!pyIsdigit t || t.length != 4) = true
    · rw [if_pos hd]
    · rw [if_neg hd]
      have hdig : pyIsdigit t = true ∧ t.length = 4 := by
        simpa using hd
      by_cases hr : (natOfDigits t.data : Int) < MIN_YEAR ∨ (natOfDigits t.data : Int) > MAX_YEAR
      · rw [if_pos hr]
      · rw [if_neg hr]
        push_neg at hr
        rcases h with ⟨u, hu, hbad⟩
        rcases List.mem_cons.mp hu with rfl | hu2
        · exact absurd ⟨hdig.1, hdig.2, hr.1, hr.2⟩ hbad
        · rw [ih ⟨u, hu2, hbad⟩]
          rfl

end PaperSearcher

namespace PaperSearcher

/-- Claim C7: a non-empty venue parameter is split on commas with each
token stripped and lowercased; the request is accepted exactly when every
token is in the fixed allow-list, with accepted codes canonicalized to
uppercase; any unknown code makes validation fail and the whole request is
rejected with a code 1 envelope and no storage call, as is an explicitly
empty venue parameter. -/
theorem validate_conferences_allowlist (s : String) (engine : Engine) (q : String)
    (y : Option String) (off lim : String) :
    (s ≠ "" → (∀ t ∈ (pySplit s).map (fun t => pyLower (pyStrip t)), t ∈ ALLOWED_CONFERENCES) →
      validate_conferences (some s) =
        some (((pySplit s).map (fun t => pyLower (pyStrip t))).map (fun t => pyUpper t))) ∧
    ((∃ t ∈ (pySplit s).map (fun t => pyLower (pyStrip t)), t ∉ ALLOWED_CONFERENCES) →
      validate_conferences (some s) = none) ∧
    ((s = "" ∨ validate_conferences (some s) = none) →
      ∃ resp, get_info engine q (some s) y off lim = Except.ok (resp, []) ∧ resp.code = 1) := by
  refine ⟨?_, ?_, ?_⟩
  · intro hne hall
    unfold validate_conferences
    dsimp only
    rw [if_neg hne]
    have hAll : (((pySplit s).map (fun t => pyLower (pyStrip t))).all
        (fun t => ALLOWED_CONFERENCES.contains t)) = true := by
      rw [List.all_eq_true]
      intro t ht
      exact (contains_iff _ _).mpr (hall t ht)
    rw [if_pos hAll]
  · intro hbad
    unfold validate_conferences
    dsimp only
    by_cases hne : s = ""
    · rw [if_pos hne]
    · rw [if_neg hne]
      have hAll : ¬ ((((pySplit s).map (fun t => pyLower (pyStrip t))).all
          (fun t => ALLOWED_CONFERENCES.contains t)) = true) := by
        rw [List.all_eq_true]
        intro hAll
        rcases hbad with ⟨t, ht, hnot⟩
        exact hnot ((contains_iff _ _).mp (hAll t ht))
      rw [if_neg hAll]
  · intro h
    apply get_info_rejects
    by_cases hne : s = ""
    · subst hne
      exact Or.inr (Or.inr (Or.inl rfl))
    · rcases h with h | h
      · exact absurd h hne
      · refine Or.inr (Or.inr (Or.inr (Or.inl ⟨?_, h⟩)))
        simp [pyTruthy, hne]

theorem validate_conferences_allowlist_witness :
    validate_conferences (some "ccs,bogus") = none ∧
    (∃ resp, get_info constEngine "a" (some "ccs,bogus") none "0" "10" =
      Except.ok (resp, []) ∧ resp.code = 1) ∧
    validate_conferences (some "ccs, SP ") = some ["CCS", "SP"] := by
  refine ⟨?_, ?_, ?_⟩
  · exact (validate_conferences_allowlist "ccs,bogus" constEngine "a" none "0" "10").2.1
      (by decide)
  · refine (validate_conferences_allowlist "ccs,bogus" constEngine "a" none "0" "10").2.2
      (Or.inr ?_)
    exact (validate_conferences_allowlist "ccs,bogus" constEngine "a" none "0" "10").2.1
      (by decide)
  · exact ((validate_conferences_allowlist "ccs, SP " constEngine "a" none "0" "10").1
      (by decide) (by decide)).trans (by decide)

/-- Claim C8: a non-empty year parameter is split on commas and each token
is accepted exactly when it is four digit characters whose value lies in
[MIN_YEAR, MAX_YEAR] = [2016, 2025]; any violating token makes validation
fail and the whole request is rejected with a code 1 envelope and no
storage call, as is an explicitly empty year parameter. -/
theorem validate_years_range (y : String) (engine : Engine) (q : String)
    (s : Option String) (off lim : String) :
    (y ≠ "" → (∀ t ∈ pySplit y, pyIsdigit t = true ∧ t.length = 4 ∧
        MIN_YEAR ≤ (natOfDigits t.data : Int) ∧ (natOfDigits t.data : Int) ≤ MAX_YEAR) →
      validate_years (some y) = some ((pySplit y).map (fun t => (natOfDigits t.data : Int)))) ∧
    ((∃ t ∈ pySplit y, ¬ (pyIsdigit t = true ∧ t.length = 4 ∧
        MIN_YEAR ≤ (natOfDigits t.data : Int) ∧ (natOfDigits t.data : Int) ≤ MAX_YEAR)) →
      validate_years (some y) = none) ∧
    ((y = "" ∨ validate_years (some y) = none) →
      ∃ resp, get_info engine q s (some y) off lim = Except.ok (resp, []) ∧ resp.code = 1) := by
  refine ⟨?_, ?_, ?_⟩
  · intro hne hall
    unfold validate_years
    dsimp only
    rw [if_neg hne, yearsAux_ok (pySplit y) hall]
  · intro hbad
    unfold validate_years
    dsimp only
    by_cases hne : y = ""
    · rw [if_pos hne]
    · rw [if_neg hne, yearsAux_bad (pySplit y) hbad]
  · intro h
    apply get_info_rejects
    by_cases hne : y = ""
    · subst hne
      exact Or.inr (Or.inr (Or.inr (Or.inr (Or.inl rfl))))
    · rcases h with h | h
      · exact absurd h hne
      · refine Or.inr (Or.inr (Or.inr (Or.inr (Or.inr ⟨?_, h⟩))))
        simp [pyTruthy, hne]

theorem validate_years_range_witness :
    validate_years (some "2016,2025") = some [2016, 2025] ∧
    validate_years (some "2015") = none ∧
    validate_years (some "2026") = none := by
  refine ⟨?_, ?_, ?_⟩
  · exact ((validate_years_range "2016,2025" constEngine "" none "0" "10").1
      (by decide) (by decide)).trans (by decide)
  · exact (validate_years_range "2015" constEngine "" none "0" "10").2.1 (by decide)
  · exact (validate_years_range "2026" constEngine "" none "0" "10").2.1 (by decide)

end PaperSearcher

namespace PaperSearcher

/-- Claim C5 counterexample: the raw query "+" passes charset validation,
the parser returns no term and one operator, and the predicate compiler
then raises an index error that no handler catches: the request ends in an
uncaught fault instead of a JSON envelope. -/
theorem get_info_uncaught_fault_counterexample :
    get_info constEngine "+" none none "0" "10" = Except.error PyErr.indexError := rfl

/-- Claim C5 (amended): every validation rejection is returned as a code 1
envelope with no storage call, and a storage-engine error at either the
count or the fetch statement is caught by search_papers and returned as a
code 1 envelope; however a request whose parse yields more operators than
terms (such as q = "+", which passes validation) makes the predicate
compiler raise an uncaught index error, so not every failure is enveloped. -/
theorem get_info_failures_enveloped (engine : Engine) (q : String) (s y : Option String)
    (off lim : String) (w : String) (p : List Value) (l o : Int) (e : String)
    (t : Value) (r1 : List Value) (rs : List (List Value)) :
    ((validate_keyword q ≠ none ∨ validate_pagination off lim = none ∨
      s = some "" ∨ (pyTruthy s = true ∧ validate_conferences s = none) ∨
      y = some "" ∨ (pyTruthy y = true ∧ validate_years y = none)) →
      ∃ resp, get_info engine q s y off lim = Except.ok (resp, []) ∧ resp.code = 1) ∧
    (engine ("SELECT COUNT(*) FROM papers WHERE " ++ w) p = Except.error e →
      search_papers engine w p l o =
        Except.ok ({ code := 1, msg := e, rows := none, total := none },
          [⟨"SELECT COUNT(*) FROM papers WHERE " ++ w, p⟩])) ∧
    (engine ("SELECT COUNT(*) FROM papers WHERE " ++ w) p = Except.ok ((t :: r1) :: rs) →
      engine ("SELECT * FROM papers WHERE " ++ w ++ " ORDER BY year DESC LIMIT ? OFFSET ?")
          (p ++ [Value.int l, Value.int o]) = Except.error e →
      search_papers engine w p l o =
        Except.ok ({ code := 1, msg := e, rows := none, total := none },
          [⟨"SELECT COUNT(*) FROM papers WHERE " ++ w, p⟩,
           ⟨"SELECT * FROM papers WHERE " ++ w ++ " ORDER BY year DESC LIMIT ? OFFSET ?",
            p ++ [Value.int l, Value.int o]⟩])) := by
  refine ⟨get_info_rejects engine q s y off lim, ?_, ?_⟩
  · intro hc
    unfold search_papers
    simp only [hc]
  · intro hc hd
    unfold search_papers
    simp only [hc, hd]

theorem get_info_failures_enveloped_witness :
    (∃ resp, get_info errEngine "a!b" none none "0" "10" =
      Except.ok (resp, []) ∧ resp.code = 1) ∧
    search_papers errEngine "1=1" [] 10 0 =
      Except.ok ({ code := 1, msg := "database is locked", rows := none, total := none },
        [⟨"SELECT COUNT(*) FROM papers WHERE 1=1", []⟩]) := by
  constructor
  · exact (get_info_failures_enveloped errEngine "a!b" none none "0" "10" "1=1" [] 10 0
      "database is locked" (Value.int 0) [] []).1 (Or.inl (by decide))
  · have h := (get_info_failures_enveloped errEngine "a!b" none none "0" "10" "1=1" [] 10 0
      "database is locked" (Value.int 0) [] []).2.1 rfl
    exact h.trans (by rfl)

/-- Claim C9: the executor issues exactly the count statement and then the
fetch statement whose text orders by year descending with limit and offset
as the two final placeholders; the fetch binds the compiled bound_values
followed by limit then offset, and each returned row is zipped with the
fixed field order id, conference, year, volume, title, href, origin,
abstract, bib, cat (obedience of the row set to the ORDER BY text is the
storage engine's contract). -/
theorem search_papers_execution (engine : Engine) (w : String) (p : List Value)
    (limit offset : Int) (t : Value) (r1 : List Value) (rs dataRows : List (List Value))
    (hc : engine ("SELECT COUNT(*) FROM papers WHERE " ++ w) p = Except.ok ((t :: r1) :: rs))
    (hd : engine ("SELECT * FROM papers WHERE " ++ w ++ " ORDER BY year DESC LIMIT ? OFFSET ?")
        (p ++ [Value.int limit, Value.int offset]) = Except.ok dataRows) :
    search_papers engine w p limit offset =
      Except.ok (Response.mk 0 "success"
        (some (dataRows.map (fun row =>
          (["id", "conference", "year", "volume", "title",
            "href", "origin", "abstract", "bib", "cat"]).zip row)))
        (some t),
        [⟨"SELECT COUNT(*) FROM papers WHERE " ++ w, p⟩,
         ⟨"SELECT * FROM papers WHERE " ++ w ++ " ORDER BY year DESC LIMIT ? OFFSET ?",
          p ++ [Value.int limit, Value.int offset]⟩]) := by
  unfold search_papers
  simp only [hc, hd]

theorem search_papers_execution_witness :
    search_papers constEngine "1=1" [] 10 0 =
      Except.ok (Response.mk 0 "success" (some [[("id", Value.int 0)]]) (some (Value.int 0)),
        [⟨"SELECT COUNT(*) FROM papers WHERE 1=1", []⟩,
         ⟨"SELECT * FROM papers WHERE 1=1 ORDER BY year DESC LIMIT ? OFFSET ?",
          [Value.int 10, Value.int 0]⟩]) := by
  rw [search_papers_execution constEngine "1=1" [] 10 0 (Value.int 0) [] [] [[Value.int 0]]
    rfl rfl]
  rfl

/-- Claim C10: for a positive id that matches no stored paper, the abstract
endpoint returns the success envelope with code 0, msg "success" and an
empty data list; a missing paper is not an error. -/
theorem get_abs_missing_paper_success (db : List Paper) (s : String) (pid : Int)
    (hparse : pyInt s = some pid) (hpos : 0 < pid)
    (hmiss : ∀ pa ∈ db, pa.id ≠ pid) :
    get_abs (absEngine db) s = { code := 0, msg := "success", data := some [] } := by
  unfold get_abs
  rw [hparse]
  dsimp only
  rw [if_neg (not_le.mpr hpos)]
  unfold get_paper_abstract absEngine
  rw [if_pos rfl]
  dsimp only
  have hfilter : db.filter (fun pa => pa.id == pid) = [] := by
    rw [List.filter_eq_nil_iff]
    intro pa hpa
    simp [hmiss pa hpa]
  rw [hfilter]
  rfl

theorem get_abs_missing_paper_success_witness :
    pyInt "1" = some 1 ∧ (0 : Int) < 1 ∧
    get_abs (absEngine []) "1" = { code := 0, msg := "success", data := some [] } :=
  ⟨rfl, by decide,
    get_abs_missing_paper_success [] "1" 1 rfl (by decide)
      (fun pa hpa => absurd hpa (List.not_mem_nil pa))⟩

end PaperSearcher
